import Mathlib

/-!
Shallow embedding of the radiotherapy dose-calculation program
(`main.py`): patient voxel grid, rotation about the grid center,
surface detection, bilinear dose-table lookup, and per-voxel dose
accumulation.  Real-valued program quantities are modelled as `ℚ`;
the cosine and sine of the beam angle are passed as explicit
parameters `c`, `s` (the program computes them once per `rotate` call
and uses them uniformly).  Operations that can raise a Python
exception return `Option`/an error message, raised at the same
program point as in the source.
-/

/-- One sample of the patient anatomy (`PatientVoxel.__init__`).
The constructor `PatientVoxel.make` negates `y` (source files have +y
down) and starts `transformed_*` equal to `x, y`. -/
structure PatientVoxel where
  x : ℚ
  y : ℚ
  structure_code : String
  transformed_x : ℚ
  transformed_y : ℚ
deriving DecidableEq

/-- `PatientVoxel.__init__`: internal coords are +y up, transformed
coords start at the original position. -/
def PatientVoxel.make (x y : ℚ) (code : String) : PatientVoxel :=
  { x := x, y := -y, structure_code := code, transformed_x := x, transformed_y := -y }

/-- The patient grid (`PatientData.__init__`): voxel list plus
incremental bounding-box state, all `None` before the first voxel. -/
structure PatientData where
  voxels : List PatientVoxel
  min_x : Option ℚ
  max_x : Option ℚ
  min_y : Option ℚ
  max_y : Option ℚ
  center_x : Option ℚ
  center_y : Option ℚ
  stride : Option ℕ
deriving DecidableEq

/-- A freshly constructed `PatientData()`. -/
def PatientData.empty : PatientData :=
  { voxels := [], min_x := none, max_x := none, min_y := none, max_y := none,
    center_x := none, center_y := none, stride := none }

/-- `PatientData.add_voxel`: append the voxel, update each bound by
comparison (`None` means uninitialized), then recompute the center
from the updated bounds. -/
def PatientData.add_voxel (p : PatientData) (v : PatientVoxel) : PatientData :=
  let nmin_x := match p.min_x with
    | none => some v.x
    | some m => if v.x < m then some v.x else some m
  let nmax_x := match p.max_x with
    | none => some v.x
    | some m => if v.x > m then some v.x else some m
  let nmin_y := match p.min_y with
    | none => some v.y
    | some m => if v.y < m then some v.y else some m
  let nmax_y := match p.max_y with
    | none => some v.y
    | some m => if v.y > m then some v.y else some m
  let ncenter_x := match nmin_x, nmax_x with
    | some a, some b => some ((a + b) / 2)
    | _, _ => none
  let ncenter_y := match nmin_y, nmax_y with
    | some a, some b => some ((a + b) / 2)
    | _, _ => none
  { voxels := p.voxels ++ [v], min_x := nmin_x, max_x := nmax_x,
    min_y := nmin_y, max_y := nmax_y, center_x := ncenter_x, center_y := ncenter_y,
    stride := p.stride }

/-- Body of the `rotate` loop for one voxel: translate by the grid
center, rotate by the matrix `[[c, -s], [s, c]]`, translate back, and
store into the transformed coordinates only. -/
def PatientVoxel.rotate_about (v : PatientVoxel) (cx cy c s : ℚ) : PatientVoxel :=
  let translated_x := v.x - cx
  let translated_y := v.y - cy
  { v with
    transformed_x := translated_x * c - translated_y * s + cx,
    transformed_y := translated_x * s + translated_y * c + cy }

/-- `PatientData.rotate`, with `c = cos angle`, `s = sin angle`.  With
no voxels the loop body never runs; with voxels but an unset center
the Python code raises (`None` arithmetic), modelled as `none`. -/
def PatientData.rotate (p : PatientData) (c s : ℚ) : Option PatientData :=
  match p.voxels with
  | [] => some p
  | _ :: _ =>
    match p.center_x, p.center_y with
    | some cx, some cy =>
        some { p with voxels := p.voxels.map (fun v => v.rotate_about cx cy c s) }
    | _, _ => none

/-- One iteration of the `find_surface` loop: a voxel whose code is
not exactly "A" updates the running maximum of `transformed_y`. -/
def surface_step (acc : Option ℚ) (v : PatientVoxel) : Option ℚ :=
  if v.structure_code ≠ "A" then
    match acc with
    | none => some v.transformed_y
    | some m => if v.transformed_y > m then some v.transformed_y else some m
  else acc

/-- `PatientData.find_surface`: maximum `transformed_y` over voxels
whose `structure_code` is not "A"; `none` when every voxel is "A". -/
def PatientData.find_surface (p : PatientData) : Option ℚ :=
  p.voxels.foldl surface_step none

/-- The measured dose table (`BeamData.__init__`): two coordinate
axes and the row-major flattened dose values. -/
structure BeamData where
  off_axis_coordinates : List ℚ
  depths : List ℚ
  doses : List ℚ
deriving DecidableEq

/-- `BeamData.get_dose_at_index`: raises (`none`) when either index is
outside `[0, length)`; otherwise reads the flattened table at
`off_axis_index * len(depths) + depth_index`. -/
def BeamData.get_dose_at_index (b : BeamData) (i j : ℤ) : Option ℚ :=
  if i < 0 ∨ (b.off_axis_coordinates.length : ℤ) ≤ i then none
  else if j < 0 ∨ (b.depths.length : ℤ) ≤ j then none
  else b.doses[i.toNat * b.depths.length + j.toNat]?

/-- Position of the first axis entry strictly greater than the query,
as found by the linear scan in `get_dose_at_depth`. -/
def find_first_greater : List ℚ → ℚ → Option ℕ
  | [], _ => none
  | cv :: rest, q => if q < cv then some 0 else (find_first_greater rest q).map (· + 1)

/-- The bracket-index search of `get_dose_at_depth`: start from
`length - 1`; the first axis entry strictly greater than the query
resets the index to that position minus one. -/
def bracket_lower (coords : List ℚ) (q : ℚ) : ℤ :=
  match find_first_greater coords q with
  | some i => (i : ℤ) - 1
  | none => (coords.length : ℤ) - 1

/-- `BeamData.get_dose_at_depth`: bracket both axes, fetch the four
corner values (each fetch can raise), interpolate along the off-axis
direction at the two bracketing depths, then along depth. -/
def BeamData.get_dose_at_depth (b : BeamData) (off_axis_value depth : ℚ) : Option ℚ :=
  let off_axis_index := bracket_lower b.off_axis_coordinates off_axis_value
  let depth_index := bracket_lower b.depths depth
  match b.get_dose_at_index off_axis_index depth_index with
  | none => none
  | some d1 =>
    match b.get_dose_at_index (off_axis_index + 1) depth_index with
    | none => none
    | some d2 =>
      match b.off_axis_coordinates[(off_axis_index + 1).toNat]?,
            b.off_axis_coordinates[off_axis_index.toNat]? with
      | some cUpper, some cLower =>
        let delta_coord := cUpper - cLower
        let delta_target := off_axis_value - cLower
        let d1_2 := d1 + (d2 - d1) * (delta_target / delta_coord)
        match b.get_dose_at_index off_axis_index (depth_index + 1) with
        | none => none
        | some d3 =>
          match b.get_dose_at_index (off_axis_index + 1) (depth_index + 1) with
          | none => none
          | some d4 =>
            let d3_4 := d3 + (d4 - d3) * (delta_target / delta_coord)
            match b.depths[(depth_index + 1).toNat]?, b.depths[depth_index.toNat]? with
            | some dUpper, some dLower =>
              let delta_depth := dUpper - dLower
              let delta_target_depth := depth - dLower
              some (d1_2 + (d3_4 - d1_2) * (delta_target_depth / delta_depth))
            | _, _ => none
      | _, _ => none

/-- The engine (`TreatmentPlan`): the owned patient grid and the
per-voxel dose accumulator. -/
structure TreatmentPlan where
  patient : PatientData
  dose_distribution : List ℚ
deriving DecidableEq

/-- `TreatmentPlan.__init__`: accumulator of zeros, one per voxel. -/
def TreatmentPlan.make (p : PatientData) : TreatmentPlan :=
  { patient := p, dose_distribution := List.replicate p.voxels.length 0 }

/-- The per-voxel loop of `treat_with_beam_at_angle`, walking the
voxel list in step with the accumulator.  On an exception the pair
carries the error and the accumulator as mutated so far: slots of
voxels already processed keep their increments. -/
def treat_loop (beam : BeamData) (surface_y : ℚ) :
    List PatientVoxel → List ℚ → Option String × List ℚ
  | [], dist => (none, dist)
  | v :: vs, dist =>
    let depth := surface_y - v.transformed_y
    if depth < 0 then
      (some "Voxel is above the surface, which should not happen, surface must be incorrect",
       dist)
    else
      match beam.get_dose_at_depth v.transformed_x depth with
      | none => (some "Index out of range", dist)
      | some dose =>
        match dist with
        | [] => (some "Index out of range", dist)
        | d :: rest =>
          let r := treat_loop beam surface_y vs rest
          (r.1, (d + dose) :: r.2)

/-- `TreatmentPlan.treat_with_beam_at_angle` with `c = cos angle`,
`s = sin angle`: rotate the grid in place, find the surface (raising
when none), then run the per-voxel loop.  The returned state reflects
all mutations performed before any exception. -/
def TreatmentPlan.treat_with_beam_at_angle (t : TreatmentPlan) (beam : BeamData)
    (c s : ℚ) : Option String × TreatmentPlan :=
  match t.patient.rotate c s with
  | none => (some "TypeError: center not set", t)
  | some p1 =>
    match p1.find_surface with
    | none => (some "No surface found in patient data", { t with patient := p1 })
    | some surface_y =>
      let r := treat_loop beam surface_y p1.voxels t.dose_distribution
      (r.1, { patient := p1, dose_distribution := r.2 })

/-- Per-voxel dose contributions of one beam application, as a pure
function of the rotated voxels: the value `treat_loop` would add at
each slot, `none` when some voxel makes the loop raise. -/
def beam_doses (beam : BeamData) (surface_y : ℚ) : List PatientVoxel → Option (List ℚ)
  | [] => some []
  | v :: vs =>
    let depth := surface_y - v.transformed_y
    if depth < 0 then none
    else
      match beam.get_dose_at_depth v.transformed_x depth with
      | none => none
      | some dose =>
        match beam_doses beam surface_y vs with
        | none => none
        | some rest => some (dose :: rest)

/-- A concrete 2 by 2 dose table: off-axis axis `[0, 1]`, depth axis
`[0, 1]`, doses `[[1, 2], [3, 4]]` flattened row-major. -/
def beamEx : BeamData :=
  { off_axis_coordinates := [0, 1], depths := [0, 1], doses := [1, 2, 3, 4] }

/-- A tissue voxel at the origin. -/
def voxP : PatientVoxel :=
  { x := 0, y := 0, structure_code := "P", transformed_x := 0, transformed_y := 0 }

/-- An air voxel one unit above the tissue voxel. -/
def voxA : PatientVoxel :=
  { x := 0, y := 1, structure_code := "A", transformed_x := 0, transformed_y := 1 }

/-- A two-voxel grid: tissue at y = 0 below air at y = 1, with the
bounding-box state `add_voxel` would produce for these voxels. -/
def patEx : PatientData :=
  { voxels := [voxP, voxA], min_x := some 0, max_x := some 0,
    min_y := some 0, max_y := some 1, center_x := some 0, center_y := some (1/2),
    stride := none }

/-- The engine over `patEx` with a zeroed accumulator. -/
def planEx : TreatmentPlan := TreatmentPlan.make patEx

/-- A single-voxel all-air grid. -/
def patAir : PatientData :=
  { voxels := [voxA], min_x := some 0, max_x := some 0,
    min_y := some 1, max_y := some 1, center_x := some 0, center_y := some 1,
    stride := none }

/-- The engine over the all-air grid. -/
def planAir : TreatmentPlan := TreatmentPlan.make patAir

/-- A single tissue voxel grid at the origin (the end-to-end scenario
of the design document, with its own center). -/
def patSingle : PatientData :=
  { voxels := [voxP], min_x := some 0, max_x := some 0,
    min_y := some 0, max_y := some 0, center_x := some 0, center_y := some 0,
    stride := none }

/-- A grid whose only non-"A" voxel carries the empty structure code,
sitting below a higher air voxel. -/
def patEmptyCode : PatientData :=
  { voxels := [{ x := 0, y := 5, structure_code := "", transformed_x := 0, transformed_y := 5 },
               { x := 0, y := 10, structure_code := "A", transformed_x := 0, transformed_y := 10 }],
    min_x := some 0, max_x := some 0, min_y := some 5, max_y := some 10,
    center_x := some 0, center_y := some (15/2), stride := none }

/-- A one-voxel grid used to exercise a nontrivial rotation. -/
def patRot : PatientData :=
  { voxels := [{ x := 1, y := 0, structure_code := "P", transformed_x := 1, transformed_y := 0 }],
    min_x := some 1, max_x := some 1, min_y := some 0, max_y := some 0,
    center_x := some 0, center_y := some 0, stride := none }

/-- `patRot` after a quarter-turn (`c = 0`, `s = 1`). -/
def patRotQuarter : PatientData :=
  { voxels := [{ x := 1, y := 0, structure_code := "P", transformed_x := 0, transformed_y := 1 }],
    min_x := some 1, max_x := some 1, min_y := some 0, max_y := some 0,
    center_x := some 0, center_y := some 0, stride := none }

/-- A grid whose first voxel is air above the surface and whose
second voxel is the tissue voxel defining the surface. -/
def patFirstAir : PatientData :=
  { voxels := [voxA, voxP], min_x := some 0, max_x := some 0,
    min_y := some 0, max_y := some 1, center_x := some 0, center_y := some (1/2),
    stride := none }

/-- The engine over `patFirstAir` with a zeroed accumulator. -/
def planFirstAir : TreatmentPlan := TreatmentPlan.make patFirstAir

/-- A single tissue voxel sitting laterally outside `beamEx`'s
off-axis range (x = -5, below the first coordinate 0), at depth 0. -/
def patOffTable : PatientData :=
  { voxels := [{ x := -5, y := 0, structure_code := "P",
                 transformed_x := -5, transformed_y := 0 }],
    min_x := some (-5), max_x := some (-5), min_y := some 0, max_y := some 0,
    center_x := some (-5), center_y := some 0, stride := none }

/-- The engine over `patOffTable` with a zeroed accumulator. -/
def planOffTable : TreatmentPlan := TreatmentPlan.make patOffTable

set_option maxHeartbeats 1000000 in
lemma treat_planEx_eval : planEx.treat_with_beam_at_angle beamEx 1 0 =
    (some "Voxel is above the surface, which should not happen, surface must be incorrect",
     { patient := patEx, dose_distribution := [1, 0] }) := by
  have hrot : patEx.rotate 1 0 = some patEx := by
    norm_num [PatientData.rotate, PatientVoxel.rotate_about, patEx, voxP, voxA]
  have hsurf : patEx.find_surface = some 0 := by
    simp [PatientData.find_surface, surface_step, patEx, voxP, voxA]
  have hdose : beamEx.get_dose_at_depth 0 0 = some 1 := by
    norm_num [BeamData.get_dose_at_depth, bracket_lower, find_first_greater,
      BeamData.get_dose_at_index, beamEx]
  have hplan : planEx = { patient := patEx, dose_distribution := [0, 0] } := by
    simp [planEx, TreatmentPlan.make, patEx]
  rw [TreatmentPlan.treat_with_beam_at_angle, hplan]
  simp only [hrot, hsurf]
  simp [treat_loop, patEx, voxP, voxA, hdose]

/-! Helper lemmas about the surface fold. -/

lemma foldl_max_le_init (l : List ℚ) (a : ℚ) : a ≤ l.foldl max a := by
  induction l generalizing a with
  | nil => exact le_refl a
  | cons x t ih => exact le_trans (le_max_left a x) (ih (max a x))

lemma mem_le_foldl_max (l : List ℚ) (a x : ℚ) (hx : x ∈ l) : x ≤ l.foldl max a := by
  induction l generalizing a with
  | nil => cases hx
  | cons y t ih =>
    rcases List.mem_cons.mp hx with h | h
    · subst h
      exact le_trans (le_max_right a x) (foldl_max_le_init t (max a x))
    · rw [List.foldl_cons]
      exact ih (max a y) h

/-- The non-air voxels of a list, in order. -/
def tissue_voxels (vs : List PatientVoxel) : List PatientVoxel :=
  vs.filter (fun v => v.structure_code != "A")

lemma surface_fold_some (vs : List PatientVoxel) (m : ℚ) :
    vs.foldl surface_step (some m) =
      some (((tissue_voxels vs).map (fun v => v.transformed_y)).foldl max m) := by
  induction vs generalizing m with
  | nil => rfl
  | cons v t ih =>
    by_cases hA : v.structure_code = "A"
    · simp [surface_step, hA, tissue_voxels, List.filter_cons, ih]
    · have hb : (v.structure_code != "A") = true := bne_iff_ne.mpr hA
      have hstep : surface_step (some m) v =
          some (max m v.transformed_y) := by
        by_cases hlt : v.transformed_y > m
        · simp [surface_step, hA, hlt, max_eq_right (le_of_lt hlt)]
        · simp [surface_step, hA, hlt, max_eq_left (le_of_not_lt hlt)]
      simp only [List.foldl_cons, hstep, ih, tissue_voxels, List.filter_cons, hb,
        if_true, List.map_cons, List.foldl_cons]

lemma surface_fold_none (vs : List PatientVoxel) :
    vs.foldl surface_step none =
      ((tissue_voxels vs).map (fun v => v.transformed_y)).max? := by
  induction vs with
  | nil => rfl
  | cons v t ih =>
    by_cases hA : v.structure_code = "A"
    · simp [surface_step, hA, tissue_voxels, List.filter_cons, ih]
    · have hb : (v.structure_code != "A") = true := bne_iff_ne.mpr hA
      simp only [List.foldl_cons, surface_step, hA, ne_eq, not_false_iff, if_true,
        tissue_voxels, List.filter_cons, hb, List.map_cons, List.max?_cons' ]
      exact surface_fold_some t v.transformed_y

lemma surface_fold_all_air (vs : List PatientVoxel) (acc : Option ℚ)
    (h : ∀ v ∈ vs, v.structure_code = "A") : vs.foldl surface_step acc = acc := by
  induction vs generalizing acc with
  | nil => rfl
  | cons v t ih =>
    have hv : v.structure_code = "A" := h v (List.mem_cons_self v t)
    simp only [List.foldl_cons, surface_step, hv, ne_eq, not_true_eq_false, if_false]
    exact ih acc (fun w hw => h w (List.mem_cons_of_mem v hw))

lemma find_surface_eq_max (p : PatientData) :
    p.find_surface = ((tissue_voxels p.voxels).map (fun v => v.transformed_y)).max? :=
  surface_fold_none p.voxels

/-! Helper lemmas about rotation. -/

lemma rotate_about_idem (v : PatientVoxel) (cx cy c s : ℚ) :
    (v.rotate_about cx cy c s).rotate_about cx cy c s = v.rotate_about cx cy c s := rfl

lemma rotate_voxels (p : PatientData) (c s : ℚ) (p1 : PatientData)
    (h : p.rotate c s = some p1) :
    (p.voxels = [] ∧ p1 = p) ∨
    ∃ cx cy, p.center_x = some cx ∧ p.center_y = some cy ∧
      p1 = { p with voxels := p.voxels.map (fun v => v.rotate_about cx cy c s) } := by
  unfold PatientData.rotate at h
  rcases hv : p.voxels with _ | ⟨w, ws⟩
  · rw [hv] at h
    exact Or.inl ⟨rfl, (Option.some.inj h).symm⟩
  · rw [hv] at h
    rcases hcx : p.center_x with _ | cx <;> rcases hcy : p.center_y with _ | cy <;>
      rw [hcx, hcy] at h <;> simp at h
    refine Or.inr ⟨cx, cy, rfl, rfl, ?_⟩
    subst h
    simp [hv]

lemma rotate_rotate (p : PatientData) (c s : ℚ) (p1 : PatientData)
    (h : p.rotate c s = some p1) : p1.rotate c s = some p1 := by
  rcases rotate_voxels p c s p1 h with ⟨hnil, hp⟩ | ⟨cx, cy, hcx, hcy, hp⟩
  · subst hp
    unfold PatientData.rotate
    rw [hnil]
  · subst hp
    unfold PatientData.rotate
    rcases hv : p.voxels with _ | ⟨w, ws⟩
    · simp [hv]
    · simp [hv, hcx, hcy, List.map_map, Function.comp, rotate_about_idem]

lemma rotate_len (p : PatientData) (c s : ℚ) (p1 : PatientData)
    (h : p.rotate c s = some p1) : p1.voxels.length = p.voxels.length := by
  rcases rotate_voxels p c s p1 h with ⟨_, hp⟩ | ⟨cx, cy, _, _, hp⟩ <;>
    subst hp <;> simp

lemma rotate_originals (p : PatientData) (c s : ℚ) (p1 : PatientData)
    (h : p.rotate c s = some p1) :
    p1.voxels.map (fun v => (v.x, v.y)) = p.voxels.map (fun v => (v.x, v.y)) := by
  rcases rotate_voxels p c s p1 h with ⟨_, hp⟩ | ⟨cx, cy, _, _, hp⟩ <;> subst hp <;>
    simp [List.map_map, PatientVoxel.rotate_about]

lemma rotate_all_air (p : PatientData) (c s : ℚ) (p1 : PatientData)
    (h : p.rotate c s = some p1) (hair : ∀ v ∈ p.voxels, v.structure_code = "A") :
    ∀ v ∈ p1.voxels, v.structure_code = "A" := by
  rcases rotate_voxels p c s p1 h with ⟨_, hp⟩ | ⟨cx, cy, _, _, hp⟩ <;> subst hp
  · exact hair
  · intro v hv
    rcases List.mem_map.mp hv with ⟨w, hw, hwv⟩
    rw [← hwv]
    exact hair w hw

/-! Helper lemmas about the accumulation loop. -/

lemma treat_loop_len (beam : BeamData) (sy : ℚ) (vs : List PatientVoxel)
    (ds : List ℚ) : (treat_loop beam sy vs ds).2.length = ds.length := by
  induction vs generalizing ds with
  | nil => rfl
  | cons v t ih =>
    show (treat_loop beam sy (v :: t) ds).2.length = ds.length
    rw [treat_loop]
    by_cases hd : sy - v.transformed_y < 0
    · simp [hd]
    · simp only [hd, if_false]
      rcases beam.get_dose_at_depth v.transformed_x (sy - v.transformed_y) with _ | dose
      · simp
      · rcases ds with _ | ⟨d, rest⟩
        · simp
        · simpa using ih rest

lemma treat_loop_ok_depths (beam : BeamData) (sy : ℚ) (vs : List PatientVoxel)
    (ds ds2 : List ℚ) (h : treat_loop beam sy vs ds = (none, ds2)) :
    ∀ v ∈ vs, 0 ≤ sy - v.transformed_y := by
  induction vs generalizing ds ds2 with
  | nil => intro v hv; cases hv
  | cons w t ih =>
    intro v hv
    rw [treat_loop] at h
    by_cases hd : sy - w.transformed_y < 0
    · rw [if_pos hd] at h
      cases h
    · rw [if_neg hd] at h
      rcases List.mem_cons.mp hv with hvw | hvt
      · subst hvw
        exact le_of_not_lt hd
      · rcases hlook : beam.get_dose_at_depth w.transformed_x (sy - w.transformed_y)
          with _ | dose <;> rw [hlook] at h
        · cases h
        · rcases ds with _ | ⟨d, rest⟩
          · cases h
          · simp only [Prod.mk.injEq] at h
            rcases hrec : treat_loop beam sy t rest with ⟨e, ds3⟩
            rw [hrec] at h
            have he : e = none := h.1
            exact ih rest ds3 (by rw [hrec, he]) v hvt

lemma treat_loop_of_beam_doses (beam : BeamData) (sy : ℚ) :
    ∀ (vs : List PatientVoxel) (cs ds : List ℚ),
      beam_doses beam sy vs = some cs → vs.length = ds.length →
      treat_loop beam sy vs ds = (none, ds.zipWith (· + ·) cs) := by
  intro vs
  induction vs with
  | nil =>
    intro cs ds hbd hlen
    rcases ds with _ | ⟨d, rest⟩
    · simp only [beam_doses] at hbd
      rw [← Option.some.inj hbd]
      rfl
    · cases hlen
  | cons v t ih =>
    intro cs ds hbd hlen
    rw [beam_doses] at hbd
    by_cases hd : sy - v.transformed_y < 0
    · rw [if_pos hd] at hbd
      cases hbd
    · rw [if_neg hd] at hbd
      rcases hlook : beam.get_dose_at_depth v.transformed_x (sy - v.transformed_y)
        with _ | dose <;> rw [hlook] at hbd
      · cases hbd
      · rcases hrest : beam_doses beam sy t with _ | cs' <;> rw [hrest] at hbd
        · cases hbd
        · rcases ds with _ | ⟨d, rest⟩
          · cases hlen
          · rw [← Option.some.inj hbd]
            have hlen' : t.length = rest.length := by
              simpa using hlen
            rw [treat_loop, if_neg hd]
            simp only [hlook]
            rw [ih cs' rest hrest hlen']
            rfl

lemma treat_loop_to_beam_doses (beam : BeamData) (sy : ℚ) :
    ∀ (vs : List PatientVoxel) (ds ds2 : List ℚ),
      treat_loop beam sy vs ds = (none, ds2) → vs.length = ds.length →
      ∃ cs, beam_doses beam sy vs = some cs ∧ ds2 = ds.zipWith (· + ·) cs := by
  intro vs
  induction vs with
  | nil =>
    intro ds ds2 h hlen
    rcases ds with _ | ⟨d, rest⟩
    · refine ⟨[], rfl, ?_⟩
      rw [treat_loop] at h
      simp only [Prod.mk.injEq] at h
      rw [← h.2]
      rfl
    · cases hlen
  | cons v t ih =>
    intro ds ds2 h hlen
    rw [treat_loop] at h
    by_cases hd : sy - v.transformed_y < 0
    · rw [if_pos hd] at h
      cases h
    · rw [if_neg hd] at h
      rcases hlook : beam.get_dose_at_depth v.transformed_x (sy - v.transformed_y)
        with _ | dose <;> rw [hlook] at h
      · cases h
      · rcases ds with _ | ⟨d, rest⟩
        · cases hlen
        · simp only [Prod.mk.injEq] at h
          rcases hrec : treat_loop beam sy t rest with ⟨e, ds3⟩
          rw [hrec] at h
          have he : e = none := h.1
          have hds2 : (d + dose) :: ds3 = ds2 := h.2
          have hlen' : t.length = rest.length := by
            simpa using hlen
          rcases ih rest ds3 (by rw [hrec, he]) hlen' with ⟨cs', hcs', hds3⟩
          refine ⟨dose :: cs', ?_, ?_⟩
          · rw [beam_doses, if_neg hd]
            simp only [hlook, hcs']
          · rw [← hds2, hds3]
            rfl

lemma beam_doses_length (beam : BeamData) (sy : ℚ) :
    ∀ (vs : List PatientVoxel) (cs : List ℚ),
      beam_doses beam sy vs = some cs → cs.length = vs.length := by
  intro vs
  induction vs with
  | nil =>
    intro cs h
    rw [← Option.some.inj h]
    rfl
  | cons v t ih =>
    intro cs h
    rw [beam_doses] at h
    by_cases hd : sy - v.transformed_y < 0
    · rw [if_pos hd] at h
      cases h
    · rw [if_neg hd] at h
      rcases hlook : beam.get_dose_at_depth v.transformed_x (sy - v.transformed_y)
        with _ | dose <;> rw [hlook] at h
      · cases h
      · rcases hrest : beam_doses beam sy t with _ | cs' <;> rw [hrest] at h
        · cases h
        · rw [← Option.some.inj h]
          simpa using ih cs' hrest

lemma zipWith_add_replicate_zero :
    ∀ (cs : List ℚ) (n : ℕ), cs.length = n →
      (List.replicate n (0:ℚ)).zipWith (· + ·) cs = cs := by
  intro cs
  induction cs with
  | nil => intro n _; simp
  | cons d t ih =>
    intro n hn
    rcases n with _ | m
    · cases hn
    · simp only [List.replicate, List.zipWith, zero_add]
      rw [ih m (by simpa using hn)]

lemma zipWith_add_self (l : List ℚ) :
    l.zipWith (· + ·) l = l.map (fun d => 2 * d) := by
  induction l with
  | nil => rfl
  | cons d t ih =>
    simp only [List.zipWith, List.map_cons, ih, two_mul]

/-! Helper lemmas about `add_voxel` and the bounding box. -/

lemma ite_lt_eq_min (w a : ℚ) : (if w < a then some w else some a) = some (min a w) := by
  rcases lt_or_le w a with h | h
  · rw [if_pos h, min_eq_right (le_of_lt h)]
  · rw [if_neg (not_lt.mpr h), min_eq_left h]

lemma ite_gt_eq_max (w a : ℚ) : (if w > a then some w else some a) = some (max a w) := by
  rcases lt_or_le a w with h | h
  · rw [if_pos h, max_eq_right (le_of_lt h)]
  · rw [if_neg (not_lt.mpr h), max_eq_left h]

lemma add_voxel_fields (g : PatientData) (w : PatientVoxel) (a b c d : ℚ)
    (ha : g.min_x = some a) (hb : g.max_x = some b)
    (hc : g.min_y = some c) (hd : g.max_y = some d) :
    (g.add_voxel w).min_x = some (min a w.x) ∧
    (g.add_voxel w).max_x = some (max b w.x) ∧
    (g.add_voxel w).min_y = some (min c w.y) ∧
    (g.add_voxel w).max_y = some (max d w.y) ∧
    (g.add_voxel w).center_x = some ((min a w.x + max b w.x) / 2) ∧
    (g.add_voxel w).center_y = some ((min c w.y + max d w.y) / 2) := by
  simp [PatientData.add_voxel, ha, hb, hc, hd, ite_lt_eq_min, ite_gt_eq_max]

lemma add_voxel_fold (ws : List PatientVoxel) :
    ∀ (g : PatientData) (a b c d : ℚ),
      g.min_x = some a → g.max_x = some b → g.min_y = some c → g.max_y = some d →
      g.center_x = some ((a + b) / 2) → g.center_y = some ((c + d) / 2) →
      (ws.foldl PatientData.add_voxel g).min_x =
        some ((ws.map (fun v => v.x)).foldl min a) ∧
      (ws.foldl PatientData.add_voxel g).max_x =
        some ((ws.map (fun v => v.x)).foldl max b) ∧
      (ws.foldl PatientData.add_voxel g).min_y =
        some ((ws.map (fun v => v.y)).foldl min c) ∧
      (ws.foldl PatientData.add_voxel g).max_y =
        some ((ws.map (fun v => v.y)).foldl max d) ∧
      (ws.foldl PatientData.add_voxel g).center_x =
        some (((ws.map (fun v => v.x)).foldl min a +
               (ws.map (fun v => v.x)).foldl max b) / 2) ∧
      (ws.foldl PatientData.add_voxel g).center_y =
        some (((ws.map (fun v => v.y)).foldl min c +
               (ws.map (fun v => v.y)).foldl max d) / 2) := by
  induction ws with
  | nil =>
    intro g a b c d ha hb hc hd hcx hcy
    exact ⟨ha, hb, hc, hd, hcx, hcy⟩
  | cons w t ih =>
    intro g a b c d ha hb hc hd hcx hcy
    rcases add_voxel_fields g w a b c d ha hb hc hd with ⟨h1, h2, h3, h4, h5, h6⟩
    simpa using ih (g.add_voxel w) (min a w.x) (max b w.x) (min c w.y) (max d w.y)
      h1 h2 h3 h4 h5 h6

/-! Helper lemmas about the bracket search below the first coordinate. -/

lemma bracket_lower_below (c0 : ℚ) (rest : List ℚ) (q : ℚ) (h : q < c0) :
    bracket_lower (c0 :: rest) q = -1 := by
  rw [bracket_lower, find_first_greater, if_pos h]
  norm_num

lemma get_dose_at_depth_of_bracket_neg (b : BeamData) (q dep : ℚ)
    (h : bracket_lower b.off_axis_coordinates q = -1) :
    b.get_dose_at_depth q dep = none := by
  have hidx : b.get_dose_at_index (-1) (bracket_lower b.depths dep) = none := by
    rw [BeamData.get_dose_at_index, if_pos (Or.inl (by norm_num))]
  simp only [BeamData.get_dose_at_depth, h, hidx]

/-- C1: on the 2 by 2 table `beamEx` (axes `[0, 1]`), a query at the
last off-axis coordinate (1) or beyond it (3/2) leaves the bracket
lower index at `length - 1 = 1`, not `length - 2 = 0` as the claim
states, and the subsequent exact-index fetch at index 2 is out of
range, so `get_dose_at_depth` fails instead of extrapolating. -/
theorem beyond_last_bracket_is_length_sub_one :
    bracket_lower beamEx.off_axis_coordinates (3/2) = 1 ∧
    bracket_lower beamEx.off_axis_coordinates 1 = 1 ∧
    beamEx.get_dose_at_depth (3/2) (1/2) = none ∧
    beamEx.get_dose_at_depth 1 (1/2) = none := by
  refine ⟨?_, ?_, ?_, ?_⟩ <;>
    norm_num [BeamData.get_dose_at_depth, bracket_lower, find_first_greater,
      BeamData.get_dose_at_index, beamEx]

/-- C2: on `beamEx`, the lookup at the interior grid node
`(off_axis_coordinates[0], depths[0]) = (0, 0)` returns exactly the
stored value 1, but at nodes whose index on some axis is the last one
— `(0, depths[1])` with stored value 2 and
`(off_axis_coordinates[1], depths[1])` with stored value 4 — the
lookup fails with an out-of-range fetch instead of returning the
stored value, contradicting the claim for the last index. -/
theorem grid_node_lookup_fails_at_last_index :
    beamEx.get_dose_at_depth 0 0 = some 1 ∧
    beamEx.get_dose_at_depth 0 1 = none ∧
    beamEx.get_dose_at_depth 1 1 = none := by
  refine ⟨?_, ?_, ?_⟩ <;>
    norm_num [BeamData.get_dose_at_depth, bracket_lower, find_first_greater,
      BeamData.get_dose_at_index, beamEx]

/-- C3 counterexample: on `beamEx`, a query strictly below the first
off-axis coordinate brackets with lower index -1, not 0, and the
lookup returns `none` (the exact-index fetch raises) instead of
returning a value. -/
theorem below_first_lookup_fails_example :
    bracket_lower beamEx.off_axis_coordinates (-1) = -1 ∧
    beamEx.get_dose_at_depth (-1) (1/2) = none := by
  constructor <;>
    norm_num [BeamData.get_dose_at_depth, bracket_lower, find_first_greater,
      BeamData.get_dose_at_index, beamEx]

/-- C3 amended: for every table, a query strictly below the first
off-axis coordinate gives bracket lower index -1, and
`get_dose_at_depth` then fails (the first exact-index fetch is out of
range) rather than extrapolating from the first interval. -/
theorem below_first_brackets_minus_one (b : BeamData) (c0 : ℚ) (rest : List ℚ)
    (q dep : ℚ) (hax : b.off_axis_coordinates = c0 :: rest) (hq : q < c0) :
    bracket_lower b.off_axis_coordinates q = -1 ∧
    b.get_dose_at_depth q dep = none := by
  have hbr : bracket_lower b.off_axis_coordinates q = -1 := by
    rw [hax]
    exact bracket_lower_below c0 rest q hq
  exact ⟨hbr, get_dose_at_depth_of_bracket_neg b q dep hbr⟩

/-- Witness for C3 amended, at the table `beamEx` and query -2. -/
theorem below_first_brackets_minus_one_witness :
    bracket_lower beamEx.off_axis_coordinates (-2) = -1 ∧
    beamEx.get_dose_at_depth (-2) (1/2) = none :=
  below_first_brackets_minus_one beamEx 0 [1] (-2) (1/2) rfl (by norm_num)

/-- C9: after any nonempty sequence of `add_voxel` calls starting
from a fresh grid, `min_x`/`max_x`/`min_y`/`max_y` are exactly the
extremes of the added voxels' coordinates, and the center is the
midpoint of that bounding box on each axis. -/
theorem add_voxel_bounds_and_center (v : PatientVoxel) (vs : List PatientVoxel) :
    ((v :: vs).foldl PatientData.add_voxel PatientData.empty).min_x =
      some ((vs.map (fun w => w.x)).foldl min v.x) ∧
    ((v :: vs).foldl PatientData.add_voxel PatientData.empty).max_x =
      some ((vs.map (fun w => w.x)).foldl max v.x) ∧
    ((v :: vs).foldl PatientData.add_voxel PatientData.empty).min_y =
      some ((vs.map (fun w => w.y)).foldl min v.y) ∧
    ((v :: vs).foldl PatientData.add_voxel PatientData.empty).max_y =
      some ((vs.map (fun w => w.y)).foldl max v.y) ∧
    ((v :: vs).foldl PatientData.add_voxel PatientData.empty).center_x =
      some (((vs.map (fun w => w.x)).foldl min v.x +
             (vs.map (fun w => w.x)).foldl max v.x) / 2) ∧
    ((v :: vs).foldl PatientData.add_voxel PatientData.empty).center_y =
      some (((vs.map (fun w => w.y)).foldl min v.y +
             (vs.map (fun w => w.y)).foldl max v.y) / 2) := by
  have hbase := add_voxel_fold vs (PatientData.empty.add_voxel v) v.x v.x v.y v.y
    (by simp [PatientData.empty, PatientData.add_voxel])
    (by simp [PatientData.empty, PatientData.add_voxel])
    (by simp [PatientData.empty, PatientData.add_voxel])
    (by simp [PatientData.empty, PatientData.add_voxel])
    (by simp [PatientData.empty, PatientData.add_voxel])
    (by simp [PatientData.empty, PatientData.add_voxel])
  simpa using hbase

/-- C5: rotation is not cumulative.  If `rotate` (with the cosine and
sine of some angle) takes the grid `p` to `p1`, then calling it again
on `p1` with the same angle returns `p1` unchanged, because each call
recomputes every voxel's transformed coordinates from the original
`x, y`, which rotation never modifies (second conjunct). -/
theorem rotate_not_cumulative (p : PatientData) (c s : ℚ) (p1 : PatientData)
    (h : p.rotate c s = some p1) :
    p1.rotate c s = some p1 ∧
    p1.voxels.map (fun v => (v.x, v.y)) = p.voxels.map (fun v => (v.x, v.y)) :=
  ⟨rotate_rotate p c s p1 h, rotate_originals p c s p1 h⟩

/-- Witness for C5: a quarter-turn of `patRot` lands on
`patRotQuarter`, and a second identical call leaves it fixed. -/
theorem rotate_not_cumulative_witness :
    patRotQuarter.rotate 0 1 = some patRotQuarter ∧
    patRotQuarter.voxels.map (fun v => (v.x, v.y)) =
      patRot.voxels.map (fun v => (v.x, v.y)) :=
  rotate_not_cumulative patRot 0 1 patRotQuarter
    (by norm_num [PatientData.rotate, PatientVoxel.rotate_about, patRot, patRotQuarter])

/-- C6: `find_surface` returns the maximum `transformed_y` over the
voxels whose structure code is not "A" (as the `max?` of that list),
and when every voxel is classified as air the beam application fails
with the no-surface error rather than treating the grid as a
zero-dose case. -/
theorem find_surface_max_and_all_air_fails (g : PatientData) :
    g.find_surface =
      ((tissue_voxels g.voxels).map (fun v => v.transformed_y)).max? ∧
    (∀ (t : TreatmentPlan) (beam : BeamData) (c s : ℚ) (p1 : PatientData),
      t.patient = g → g.rotate c s = some p1 →
      (∀ v ∈ g.voxels, v.structure_code = "A") →
      (t.treat_with_beam_at_angle beam c s).1 =
        some "No surface found in patient data") := by
  refine ⟨find_surface_eq_max g, ?_⟩
  intro t beam c s p1 hpat hrot hair
  have hair1 : ∀ v ∈ p1.voxels, v.structure_code = "A" :=
    rotate_all_air g c s p1 hrot hair
  have hsurf : p1.find_surface = none := by
    rw [PatientData.find_surface]
    exact surface_fold_all_air p1.voxels none hair1
  rw [TreatmentPlan.treat_with_beam_at_angle, hpat]
  simp [hrot, hsurf]

/-- Witness for C6 at the all-air grid `patAir`. -/
theorem find_surface_max_and_all_air_fails_witness :
    (planAir.treat_with_beam_at_angle beamEx 1 0).1 =
      some "No surface found in patient data" :=
  (find_surface_max_and_all_air_fails patAir).2 planAir beamEx 1 0 patAir rfl
    (by norm_num [PatientData.rotate, PatientVoxel.rotate_about, patAir, voxA])
    (by intro v hv
        simp only [patAir, voxA] at hv
        rcases List.mem_singleton.mp hv with h
        rw [h])

/-- C7: inside the per-voxel loop, the depth of a voxel is
`surface_y - transformed_y`; reaching a voxel of strictly negative
depth raises the above-surface invariant error immediately, before
any dose lookup for that voxel and with the accumulator untouched at
that point (first conjunct, for every beam table); consequently a
beam application over a rotated grid that contains any voxel above
the detected surface never returns success (second conjunct). -/
theorem negative_depth_aborts :
    (∀ (beam : BeamData) (sy : ℚ) (v : PatientVoxel) (vs : List PatientVoxel)
        (ds : List ℚ), sy - v.transformed_y < 0 →
      treat_loop beam sy (v :: vs) ds =
        (some "Voxel is above the surface, which should not happen, surface must be incorrect",
         ds)) ∧
    (∀ (t : TreatmentPlan) (beam : BeamData) (c s : ℚ) (p1 : PatientData) (sy : ℚ),
      t.patient.rotate c s = some p1 → p1.find_surface = some sy →
      (∃ v ∈ p1.voxels, sy - v.transformed_y < 0) →
      (t.treat_with_beam_at_angle beam c s).1 ≠ none) := by
  constructor
  · intro beam sy v vs ds hneg
    rw [treat_loop, if_pos hneg]
  · intro t beam c s p1 sy hrot hsurf hex hnone
    rcases hex with ⟨v, hv, hneg⟩
    rw [TreatmentPlan.treat_with_beam_at_angle] at hnone
    simp only [hrot, hsurf] at hnone
    rcases hloop : treat_loop beam sy p1.voxels t.dose_distribution with ⟨e, ds2⟩
    rw [hloop] at hnone
    have he : e = none := hnone
    have hall := treat_loop_ok_depths beam sy p1.voxels t.dose_distribution ds2
      (by rw [hloop, he])
    exact absurd (hall v hv) (not_le.mpr hneg)

/-- Witness for C7: an air voxel one unit above the surface makes the
loop abort for every beam, and the two-voxel plan fails. -/
theorem negative_depth_aborts_witness :
    treat_loop beamEx 0 [voxA] [0] =
      (some "Voxel is above the surface, which should not happen, surface must be incorrect",
       [0]) ∧
    (planEx.treat_with_beam_at_angle beamEx 1 0).1 ≠ none :=
  ⟨negative_depth_aborts.1 beamEx 0 voxA [] [0] (by norm_num [voxA]),
   negative_depth_aborts.2 planEx beamEx 1 0 patEx 0
     (by norm_num [planEx, TreatmentPlan.make, PatientData.rotate,
       PatientVoxel.rotate_about, patEx, voxP, voxA])
     (by simp [PatientData.find_surface, surface_step, patEx, voxP, voxA])
     ⟨voxA, List.mem_cons_of_mem voxP (List.mem_cons_self voxA []),
      by norm_num [voxA]⟩⟩

/-- C10: a voxel is classified as air exactly when its structure code
is the string "A"; every voxel with any other code — including the
empty string — counts as tissue for surface detection: its presence
forces `find_surface` to be defined, and the returned surface is at
least that voxel's `transformed_y`. -/
theorem non_air_code_is_tissue (g : PatientData) (v : PatientVoxel)
    (hv : v ∈ g.voxels) (hcode : v.structure_code ≠ "A") :
    g.find_surface ≠ none ∧
    ∀ m, g.find_surface = some m → v.transformed_y ≤ m := by
  have hmem : v.transformed_y ∈ (tissue_voxels g.voxels).map (fun w => w.transformed_y) :=
    List.mem_map.mpr ⟨v, List.mem_filter.mpr ⟨hv, bne_iff_ne.mpr hcode⟩, rfl⟩
  rcases hl : (tissue_voxels g.voxels).map (fun w => w.transformed_y) with _ | ⟨y, t⟩
  · rw [hl] at hmem
    cases hmem
  · constructor
    · rw [find_surface_eq_max, hl, List.max?_cons' ]
      simp
    · intro m hm
      rw [find_surface_eq_max, hl, List.max?_cons' ] at hm
      have hfold : t.foldl max y = m := Option.some.inj hm
      rw [hl] at hmem
      rcases List.mem_cons.mp hmem with hh | hh
      · rw [← hfold, hh]
        exact foldl_max_le_init t y
      · rw [← hfold]
        exact mem_le_foldl_max t y v.transformed_y hh

/-- Witness for C10: the empty-string voxel of `patEmptyCode` forces a
surface and bounds it from below (the surface is 5, its own height,
even though an air voxel sits higher at 10). -/
theorem non_air_code_is_tissue_witness :
    patEmptyCode.find_surface ≠ none ∧ (5:ℚ) ≤ 5 ∧ patEmptyCode.find_surface = some 5 := by
  have hfs : patEmptyCode.find_surface = some 5 := by
    simp [PatientData.find_surface, surface_step, patEmptyCode]
  have happ := non_air_code_is_tissue patEmptyCode
    { x := 0, y := 5, structure_code := "", transformed_x := 0, transformed_y := 5 }
    (List.mem_cons_self _ _) (by simp)
  exact ⟨happ.1, happ.2 5 hfs, hfs⟩

/-- C4 counterexample: on `planEx` (tissue voxel processed first, air
voxel above the surface second), `treat_with_beam_at_angle` raises
the above-surface error at the second voxel, but the first voxel's
dose has already been added, so the accumulator is not left as it was
before the call. -/
theorem apply_beam_midloop_write_example :
    (planEx.treat_with_beam_at_angle beamEx 1 0).1 ≠ none ∧
    (planEx.treat_with_beam_at_angle beamEx 1 0).2.dose_distribution ≠
      planEx.dose_distribution := by
  rw [treat_planEx_eval]
  constructor
  · simp
  · norm_num [planEx, TreatmentPlan.make, patEx, List.replicate]

/-- C4 amended: failures detected before any accumulator write — no
surface found, or a per-voxel failure (negative depth or lookup
failure) at the first voxel — leave the accumulator exactly as it
was; a per-voxel failure after earlier voxels succeeded leaves those
earlier slots already incremented, so the accumulator is not in
general restored (see the counterexample). -/
theorem apply_beam_error_before_write_preserves (t : TreatmentPlan) (beam : BeamData)
    (c s : ℚ) (p1 : PatientData) :
    (t.patient.rotate c s = some p1 → p1.find_surface = none →
      (t.treat_with_beam_at_angle beam c s).1 =
          some "No surface found in patient data" ∧
      (t.treat_with_beam_at_angle beam c s).2.dose_distribution =
          t.dose_distribution) ∧
    (∀ (sy : ℚ) (v : PatientVoxel) (vs : List PatientVoxel),
      t.patient.rotate c s = some p1 → p1.find_surface = some sy →
      p1.voxels = v :: vs → sy - v.transformed_y < 0 →
      (t.treat_with_beam_at_angle beam c s).1 ≠ none ∧
      (t.treat_with_beam_at_angle beam c s).2.dose_distribution =
          t.dose_distribution) ∧
    (∀ (sy : ℚ) (v : PatientVoxel) (vs : List PatientVoxel),
      t.patient.rotate c s = some p1 → p1.find_surface = some sy →
      p1.voxels = v :: vs → ¬ sy - v.transformed_y < 0 →
      beam.get_dose_at_depth v.transformed_x (sy - v.transformed_y) = none →
      (t.treat_with_beam_at_angle beam c s).1 ≠ none ∧
      (t.treat_with_beam_at_angle beam c s).2.dose_distribution =
          t.dose_distribution) := by
  refine ⟨?_, ?_, ?_⟩
  · intro hrot hsurf
    rw [TreatmentPlan.treat_with_beam_at_angle]
    simp [hrot, hsurf]
  · intro sy v vs hrot hsurf hvox hneg
    rw [TreatmentPlan.treat_with_beam_at_angle]
    simp only [hrot, hsurf, hvox]
    rw [treat_loop, if_pos hneg]
    simp
  · intro sy v vs hrot hsurf hvox hnonneg hlook
    rw [TreatmentPlan.treat_with_beam_at_angle]
    simp only [hrot, hsurf, hvox]
    rw [treat_loop, if_neg hnonneg]
    simp only [hlook]
    simp

/-- Witness for C4 amended: the all-air plan fails before the loop
with the accumulator untouched; `planFirstAir` fails at its first
voxel on negative depth with the accumulator untouched; and
`planOffTable` fails at its first voxel on an off-table lookup with
the accumulator untouched. -/
theorem apply_beam_error_before_write_preserves_witness :
    ((planAir.treat_with_beam_at_angle beamEx 1 0).1 =
        some "No surface found in patient data" ∧
     (planAir.treat_with_beam_at_angle beamEx 1 0).2.dose_distribution =
        planAir.dose_distribution) ∧
    ((planFirstAir.treat_with_beam_at_angle beamEx 1 0).1 ≠ none ∧
     (planFirstAir.treat_with_beam_at_angle beamEx 1 0).2.dose_distribution =
        planFirstAir.dose_distribution) ∧
    ((planOffTable.treat_with_beam_at_angle beamEx 1 0).1 ≠ none ∧
     (planOffTable.treat_with_beam_at_angle beamEx 1 0).2.dose_distribution =
        planOffTable.dose_distribution) :=
  ⟨(apply_beam_error_before_write_preserves planAir beamEx 1 0 patAir).1
     (by norm_num [planAir, TreatmentPlan.make, PatientData.rotate,
       PatientVoxel.rotate_about, patAir, voxA])
     (by simp [PatientData.find_surface, surface_step, patAir, voxA]),
   (apply_beam_error_before_write_preserves planFirstAir beamEx 1 0 patFirstAir).2.1
     0 voxA [voxP]
     (by norm_num [planFirstAir, TreatmentPlan.make, PatientData.rotate,
       PatientVoxel.rotate_about, patFirstAir, voxP, voxA])
     (by simp [PatientData.find_surface, surface_step, patFirstAir, voxP, voxA])
     rfl
     (by norm_num [voxA]),
   (apply_beam_error_before_write_preserves planOffTable beamEx 1 0 patOffTable).2.2
     0 { x := -5, y := 0, structure_code := "P",
         transformed_x := -5, transformed_y := 0 } []
     (by norm_num [planOffTable, TreatmentPlan.make, PatientData.rotate,
       PatientVoxel.rotate_about, patOffTable])
     (by simp [PatientData.find_surface, surface_step, patOffTable])
     rfl
     (by norm_num)
     (by norm_num [BeamData.get_dose_at_depth, bracket_lower, find_first_greater,
       BeamData.get_dose_at_index, beamEx])⟩

/-- C8: dose accumulates additively.  Starting from a freshly
constructed engine, if the first application of a beam succeeds and
produces the engine state `t1`, then a second application of the same
beam at the same angle succeeds as well and leaves every accumulator
entry at exactly twice its value after the first application. -/
theorem dose_accumulates_additively (p : PatientData) (beam : BeamData) (c s : ℚ)
    (t1 : TreatmentPlan)
    (h : (TreatmentPlan.make p).treat_with_beam_at_angle beam c s = (none, t1)) :
    (t1.treat_with_beam_at_angle beam c s).1 = none ∧
    (t1.treat_with_beam_at_angle beam c s).2.dose_distribution =
      t1.dose_distribution.map (fun d => 2 * d) := by
  rw [TreatmentPlan.treat_with_beam_at_angle] at h
  simp only [TreatmentPlan.make] at h
  rcases hrot : p.rotate c s with _ | p1
  · simp [hrot] at h
  · simp only [hrot] at h
    rcases hsurf : p1.find_surface with _ | sy
    · simp [hsurf] at h
    · simp only [hsurf] at h
      rw [Prod.mk.injEq] at h
      obtain ⟨h1, h2⟩ := h
      rcases hloop : treat_loop beam sy p1.voxels (List.replicate p.voxels.length 0)
        with ⟨e, ds1⟩
      rw [hloop] at h1 h2
      have he : e = none := h1
      have hlen1 : p1.voxels.length = p.voxels.length := rotate_len p c s p1 hrot
      have hlenEq : p1.voxels.length =
          (List.replicate p.voxels.length (0:ℚ)).length := by
        simp [hlen1]
      rcases treat_loop_to_beam_doses beam sy p1.voxels
          (List.replicate p.voxels.length 0) ds1 (by rw [hloop, he]) hlenEq
        with ⟨cs, hcs, hds1⟩
      have hcsl : cs.length = p1.voxels.length :=
        beam_doses_length beam sy p1.voxels cs hcs
      have hds1cs : ds1 = cs := by
        rw [hds1]
        exact zipWith_add_replicate_zero cs p.voxels.length (by rw [hcsl, hlen1])
      have hrot2 : p1.rotate c s = some p1 := rotate_rotate p c s p1 hrot
      have hloop2 : treat_loop beam sy p1.voxels cs =
          (none, cs.zipWith (· + ·) cs) :=
        treat_loop_of_beam_doses beam sy p1.voxels cs cs hcs hcsl.symm
      subst h2
      rw [TreatmentPlan.treat_with_beam_at_angle]
      simp only [hds1cs, hrot2, hsurf, hloop2, zipWith_add_self]
      exact ⟨trivial, trivial⟩

/-- The engine state after one successful beam on `patSingle`. -/
def planSingleAfter : TreatmentPlan :=
  { patient := patSingle, dose_distribution := [1] }

/-- Witness for C8: the single-voxel plan receives dose 1 on the
first application and doubles to 2 on the second. -/
theorem dose_accumulates_additively_witness :
    (planSingleAfter.treat_with_beam_at_angle beamEx 1 0).1 = none ∧
    (planSingleAfter.treat_with_beam_at_angle beamEx 1 0).2.dose_distribution =
      planSingleAfter.dose_distribution.map (fun d => 2 * d) :=
  dose_accumulates_additively patSingle beamEx 1 0 planSingleAfter (by
    have hrot : patSingle.rotate 1 0 = some patSingle := by
      norm_num [PatientData.rotate, PatientVoxel.rotate_about, patSingle, voxP]
    have hsurf : patSingle.find_surface = some 0 := by
      simp [PatientData.find_surface, surface_step, patSingle, voxP]
    have hdose : beamEx.get_dose_at_depth 0 0 = some 1 := by
      norm_num [BeamData.get_dose_at_depth, bracket_lower, find_first_greater,
        BeamData.get_dose_at_index, beamEx]
    rw [TreatmentPlan.treat_with_beam_at_angle]
    simp only [TreatmentPlan.make]
    simp only [hrot, hsurf]
    simp [treat_loop, patSingle, voxP, hdose, planSingleAfter])
